import Mathlib

/-!
Verification of the outbound HTTP request dispatcher of `discord/http.py`
(class `HTTPClient`, method `request`, with its supporting types
`Ratelimiter`, `DeferrableLock`, and the login helper `static_login`).

The Python code is shallowly embedded: the per-attempt control flow of
`HTTPClient.request` (lines 157-256 of `discord/http.py`) is translated
into pure Lean functions over an explicit environment describing what the
transport layer and the event loop deliver at each of the at most five
attempts.  Observable actions (waiting on the global gate, limiter polls,
transport calls, sleeps, closing/reopening the gate, deferring the bucket
lock) are recorded in an event trace so that temporal statements of the
specification can be expressed as properties of the trace.

Durations are modelled as rationals (Python floats hold exact values for
the arithmetic performed here: division by 1000 and adding 0.5).
-/

namespace DiscordHttp

/-- The decoded JSON value of a response body, restricted to the two fields
`HTTPClient.request` reads on a 429: `data["retry_after"]` (a number of
milliseconds) and `data.get("global", False)`.  `retryAfter = none` models a
JSON object without a `retry_after` key (so `data["retry_after"]` raises
`KeyError`); `other` models any decoded JSON value that is not an object
(so the subscript raises `TypeError`). -/
inductive JsonVal where
  | obj (retryAfter : Option ℚ) (isGlobal : Bool)
  | other
deriving DecidableEq

/-- The value bound to the Python variable `data` after the body of a
response has been decoded: either a parsed JSON value or the body decoded
as UTF-8 text. -/
inductive Data where
  | json (j : JsonVal)
  | text (s : String)
deriving DecidableEq

/-- One HTTP response as seen by `HTTPClient.request`: the status code, the
`Via` and `X-Ratelimit-Remaining` headers (absent = `none`), the content
type, the body decoded as text, the result of attempting to parse the body
as JSON (`none` = `orjson.JSONDecodeError`), and the window-reset delta. -/
structure Resp where
  status : Nat
  via : Option String
  remaining : Option String
  contentType : String
  bodyText : String
  bodyJson : Option JsonVal
  resetDelta : ℚ
deriving DecidableEq

/-- Modelled from the spec: `utils._parse_ratelimit_header` lives in
`discord/utils.py`, which is not among the provided sources.  The spec only
says it computes "the window-reset delta computed from response headers",
so the delta is carried as an abstract per-response value `resetDelta`. -/
def parseRatelimitHeader (r : Resp) : ℚ := r.resetDelta

/-- Python exceptions that can escape one attempt of the retry loop.
`forbidden`, `notFound`, `serverError` and `httpExn` are
`Forbidden`, `NotFound`, `DiscordServerError` and `HTTPException` from
`discord/errors.py`; each carries the response and the decoded data that
the constructor call `Err(r, data)` received.  `jsonDecodeError` is the
`orjson.JSONDecodeError` of the aiohttp branch, `keyError` the
`KeyError`/`TypeError` of `data["retry_after"]`, `transportError` any
non-cancellation exception raised by the transport itself, `cancelled` is
`asyncio.CancelledError`, and `nameError` marks the unreachable fall-through
raise with no response ever bound. -/
inductive Err where
  | forbidden (r : Resp) (d : Data)
  | notFound (r : Resp) (d : Data)
  | serverError (r : Resp) (d : Data)
  | httpExn (r : Resp) (d : Data)
  | jsonDecodeError (r : Resp)
  | keyError (r : Resp) (d : Data)
  | transportError
  | cancelled
  | nameError
deriving DecidableEq

/-- Modelled from the spec: the class hierarchy of `discord/errors.py` in
the provided sources stops at `DiscordException`; the spec's error taxonomy
("Error taxonomy surfaced to callers", section 4.5) lists `Forbidden`,
`NotFound`, `DiscordServerError` and `HTTPException` as the HTTP errors
that "all carry the final status code and decoded body", with
`HTTPException` the catch-all they specialise.  `isHTTP` answers whether an
exception is such an `HTTPException` (and hence caught by
`except HTTPException` in `static_login`). -/
def Err.isHTTP : Err → Bool
  | .forbidden _ _ => true
  | .notFound _ _ => true
  | .serverError _ _ => true
  | .httpExn _ _ => true
  | _ => false

/-- The HTTP status carried by an HTTP error (`exc.response.status`). -/
def Err.statusOf : Err → Option Nat
  | .forbidden r _ => some r.status
  | .notFound r _ => some r.status
  | .serverError r _ => some r.status
  | .httpExn r _ => some r.status
  | _ => none

/-- Observable actions of one `HTTPClient.request` call, in program order.
`gateWait` is `await self.global_event.wait()`; `limiterTest b` is
`await self.ratelimiter.test()` returning `b`; `jitterSleep` is
`await asyncio.sleep(random.uniform(0.01, 0.1))`; `limiterHit` would be
`await self.ratelimiter.hit()`; `deferEv d` is `lock.defer_for(d)`;
`gateClear`/`gateSet` are `self.global_event.clear()`/`.set()`;
`sleep d` is `await asyncio.sleep(d)`; `shieldSleep d` is
`await asyncio.shield(asyncio.sleep(d))`; `serverBackoff` is
`await asyncio.sleep(random.uniform(0.2, 1))`; `lockAcquire`/`lockRelease`
delimit the scoped bucket-lock acquisition (`async with lock`), the release
being scheduled `d` seconds in the future. -/
inductive Event where
  | lockAcquire
  | gateWait
  | limiterTest (ok : Bool)
  | limiterHit
  | jitterSleep
  | transportCall
  | deferEv (d : ℚ)
  | gateClear
  | gateSet
  | sleep (d : ℚ)
  | shieldSleep (d : ℚ)
  | serverBackoff
  | lockRelease (d : ℚ)
deriving DecidableEq

/-- What the environment (event loop + transport) delivers to one iteration
of the `for tries in range(5)` loop: a cancellation at the gate wait, a
cancellation while polling the limiter (after `n` failed `test()` calls),
a cancellation inside the transport call, a non-cancellation transport
exception, or a response `r` (after `n` failed limiter polls), with
`cancelInSleep` meaning a cancellation is delivered during whatever sleep
the classification of `r` performs in this iteration. -/
inductive AttemptEnv where
  | cancelAtGate
  | cancelAtPoll (n : Nat)
  | transportCancel (n : Nat)
  | transportErr (n : Nat)
  | resp (n : Nat) (r : Resp) (cancelInSleep : Bool)
deriving DecidableEq

/-- How one loop iteration ends: `return data`; an in-`try` `continue`
(429 backoff or 500/502 backoff) with `r`/`data` bound; a raised exception
together with the values (if any) the attempt bound to `r` and `data`
before raising; or a propagating `asyncio.CancelledError`. -/
inductive AttemptStepKind where
  | success (d : Data)
  | retryInTry (r : Resp) (d : Data)
  | raised (e : Err) (ro : Option Resp) (dopt : Option Data)
  | cancelled
deriving DecidableEq

/-- Substring test used for `"json" in r.content_type`. -/
def strContains (needle haystack : String) : Bool :=
  decide (needle.data <:+: haystack.data)

/-- Body decoding on the libcurl branch (no files, no form), lines 200-203:
`orjson.loads(r.body)` with a `JSONDecodeError` handler falling back to
the body decoded as text. -/
def decodeCurl (r : Resp) : Data :=
  match r.bodyJson with
  | some j => Data.json j
  | none => Data.text r.bodyText

/-- Body decoding, lines 194-210.  `filesOrForm = true` selects the aiohttp
branch (lines 205-210), where the content type decides and a JSON parse
failure raises (`Except.error`); otherwise the libcurl branch is used. -/
def dataOf (filesOrForm : Bool) (r : Resp) : Except Resp Data :=
  if filesOrForm then
    if strContains "json" r.contentType then
      match r.bodyJson with
      | some j => Except.ok (Data.json j)
      | none => Except.error r
    else Except.ok (Data.text r.bodyText)
  else Except.ok (decodeCurl r)

/-- Truthiness of `r.headers.get("Via")` being false (line 220): the header
is absent, or present with an empty value. -/
def viaFalsy (r : Resp) : Bool :=
  match r.via with
  | none => true
  | some s => s == ""

/-- Lines 211-215: the delay recorded on the bucket lock when the
`X-Ratelimit-Remaining` header equals `"0"` and the status is not 429. -/
def deferOf (r : Resp) : Option ℚ :=
  if r.remaining = some "0" ∧ r.status ≠ 429 then some (parseRatelimitHeader r) else none

/-- The `lock.defer_for` events corresponding to `deferOf`. -/
def deferEvs : Option ℚ → List Event
  | some q => [Event.deferEv q]
  | none => []

/-- Lines 216-244: classification of a decoded response.  Returns how the
iteration ends together with the events the classification performs after
the deferral check.  `cib` = a cancellation is delivered during any sleep
performed here. -/
def classifyCore (r : Resp) (data : Data) (cib : Bool) : AttemptStepKind × List Event :=
  if 200 ≤ r.status ∧ r.status < 300 then (.success data, [])
  else if r.status = 429 then
    match data with
    | .json (.obj (some raMs) g) =>
      if viaFalsy r then (.raised (.httpExn r data) (some r) (some data), [])
      else if g then
        if cib then (.cancelled, [Event.gateClear])
        else (.retryInTry r data,
              [Event.gateClear, Event.sleep (raMs / 1000 + 1/2), Event.gateSet])
      else
        if cib then (.cancelled, [])
        else (.retryInTry r data, [Event.shieldSleep (raMs / 1000)])
    | _ => (.raised (.keyError r data) (some r) (some data), [])
  else if r.status = 500 ∨ r.status = 502 then
    if cib then (.cancelled, []) else (.retryInTry r data, [Event.serverBackoff])
  else if r.status = 403 then (.raised (.forbidden r data) (some r) (some data), [])
  else if r.status = 404 then (.raised (.notFound r data) (some r) (some data), [])
  else if r.status = 503 then (.raised (.serverError r data) (some r) (some data), [])
  else (.raised (.httpExn r data) (some r) (some data), [])

/-- Decode, defer check, and classification for one received response
(lines 194-244): result, events performed after the transport call, and
the deferral recorded on the bucket lock (if any). -/
def classify (filesOrForm : Bool) (r : Resp) (cib : Bool) :
    AttemptStepKind × List Event × Option ℚ :=
  match dataOf filesOrForm r with
  | .error r2 => (.raised (.jsonDecodeError r2) (some r2) none, [], none)
  | .ok data =>
    ((classifyCore r data cib).1,
     deferEvs (deferOf r) ++ (classifyCore r data cib).2,
     deferOf r)

/-- Events of the limiter polling loop (lines 191-192) when `test()` fails
`n` times: each failed test is followed by a jittered sleep. -/
def pollEvents : Nat → List Event
  | 0 => []
  | n + 1 => Event.limiterTest false :: Event.jitterSleep :: pollEvents n

/-- Events of one iteration up to and including the transport call: the
gate wait (line 183), the polling loop, the final successful `test()`, and
the transport call itself. -/
def preEvents (n : Nat) : List Event :=
  Event.gateWait :: (pollEvents n ++ [Event.limiterTest true, Event.transportCall])

/-- The outcome of one loop iteration: how it ends, the events it
performed, and the deferral it recorded on the bucket lock. -/
structure AttemptOut where
  step : AttemptStepKind
  events : List Event
  deferQ : Option ℚ
deriving DecidableEq

/-- One iteration of `for tries in range(5)` (lines 182-252) as a function
of what the environment delivers.  A cancellation anywhere is never caught
(`except asyncio.CancelledError: raise`); a non-cancellation transport
exception becomes a raised `transportError` with `r`/`data` left unbound. -/
def attemptRun (filesOrForm : Bool) : AttemptEnv → AttemptOut
  | .cancelAtGate => ⟨.cancelled, [Event.gateWait], none⟩
  | .cancelAtPoll n => ⟨.cancelled, Event.gateWait :: pollEvents n, none⟩
  | .transportCancel n => ⟨.cancelled, preEvents n, none⟩
  | .transportErr n => ⟨.raised .transportError none none, preEvents n, none⟩
  | .resp n r cib =>
    let c := classify filesOrForm r cib
    ⟨c.1, preEvents n ++ c.2.1, c.2.2⟩

/-- The loop-carried Python state: the last values bound to `r` and `data`
(used by the fall-through raise after the loop) and the delay currently
recorded on the bucket lock. -/
structure LoopState where
  lastR : Option Resp
  lastD : Option Data
  lockDelay : ℚ
deriving DecidableEq

/-- State before the first iteration: `r` and `data` unbound, no deferral
recorded on the fresh `DeferrableLock` (`self.delay = 0`). -/
def initState : LoopState := ⟨none, none, 0⟩

/-- How one iteration updates the loop-carried state. -/
def applyOut (st : LoopState) (out : AttemptOut) : LoopState :=
  let d1 : ℚ := match out.deferQ with
    | some q => q
    | none => st.lockDelay
  match out.step with
  | .retryInTry r d => ⟨some r, some d, d1⟩
  | .raised _ ro dopt =>
    ⟨(match ro with | some r => some r | none => st.lastR),
     (match dopt with | some d => some d | none => st.lastD), d1⟩
  | _ => ⟨st.lastR, st.lastD, d1⟩

/-- Result of a whole `request` call: the decoded data of a 2xx response,
or the exception that propagates to the caller. -/
inductive ReqResult where
  | success (d : Data)
  | failure (e : Err)
deriving DecidableEq

/-- Lines 253-256: the fall-through raise after the loop ran out of
retries; `DiscordServerError` when the last status is ≥ 500, else
`HTTPException`, both built from the last bound `r` and `data`. -/
def postLoop (st : LoopState) : ReqResult :=
  match st.lastR, st.lastD with
  | some r, some d =>
    if 500 ≤ r.status then .failure (.serverError r d) else .failure (.httpExn r d)
  | _, _ => .failure .nameError

/-- The retry loop `for tries in range(5)` over a list of per-iteration
environments (the list has length 5 in a real call; `rest.isEmpty`
corresponds to `tries < 4` failing).  A raised non-cancellation exception
is caught by `except Exception` and retried while iterations remain,
re-raised on the last one; a cancellation always propagates. -/
def runFrom (filesOrForm : Bool) :
    List AttemptEnv → LoopState → ReqResult × List Event × LoopState
  | [], st => (postLoop st, [], st)
  | a :: rest, st =>
    match (attemptRun filesOrForm a).step with
    | .success d =>
      (.success d, (attemptRun filesOrForm a).events,
       applyOut st (attemptRun filesOrForm a))
    | .cancelled =>
      (.failure .cancelled, (attemptRun filesOrForm a).events,
       applyOut st (attemptRun filesOrForm a))
    | .retryInTry _ _ =>
      ((runFrom filesOrForm rest (applyOut st (attemptRun filesOrForm a))).1,
       (attemptRun filesOrForm a).events ++
         (runFrom filesOrForm rest (applyOut st (attemptRun filesOrForm a))).2.1,
       (runFrom filesOrForm rest (applyOut st (attemptRun filesOrForm a))).2.2)
    | .raised e _ _ =>
      if rest.isEmpty then
        (.failure e, (attemptRun filesOrForm a).events,
         applyOut st (attemptRun filesOrForm a))
      else
        ((runFrom filesOrForm rest (applyOut st (attemptRun filesOrForm a))).1,
         (attemptRun filesOrForm a).events ++
           (runFrom filesOrForm rest (applyOut st (attemptRun filesOrForm a))).2.1,
         (runFrom filesOrForm rest (applyOut st (attemptRun filesOrForm a))).2.2)

/-- A whole `HTTPClient.request` call: the bucket lock is acquired before
the loop (`async with lock`), the five iterations run, and on every exit
path the scoped release schedules the actual unlock after the recorded
delay. -/
def request (filesOrForm : Bool) (envs : Fin 5 → AttemptEnv) : ReqResult × List Event :=
  let out := runFrom filesOrForm (List.ofFn envs) initState
  (out.1, Event.lockAcquire :: out.2.1 ++ [Event.lockRelease out.2.2.lockDelay])

/-- The observable state of `DeferrableLock` (lines 87-103): the delay that
`defer_for` recorded and that the next scoped release will apply. -/
structure DeferrableLock where
  delay : ℚ
deriving DecidableEq

/-- A freshly constructed `DeferrableLock`: `self.delay = 0`. -/
def DeferrableLock.init : DeferrableLock := ⟨0⟩

/-- Records a delay to apply on the next release: `defer_for(delay)`
(lines 94-95). -/
def DeferrableLock.defer_for (_ : DeferrableLock) (d : ℚ) : DeferrableLock := ⟨d⟩

/-- Scoped exit `__aexit__` (lines 101-103): `self.loop.call_later(
self.delay, self.release)` schedules the actual unlock `delay` seconds in
the future, then `self.delay = 0` resets the recorded delay.  Returns the
scheduled delay and the lock state after the exit. -/
def DeferrableLock.aexit (l : DeferrableLock) : ℚ × DeferrableLock := (l.delay, ⟨0⟩)

/-- Modelled from the spec: `Ratelimiter` (lines 53-63) delegates to the
external `limits` library (`MovingWindowRateLimiter` over
`RateLimitItemPerSecond(60, 1)`), whose sources are not part of this
repository.  Per the spec, the state is a moving-window counter of
recorded hits ("Token Limiter State: { window_start, count, limit, window }"),
`test()` "returns whether a slot is currently available" without consuming
one, and a hit records an event into the window.  Hits are kept as their
timestamps in seconds. -/
structure Ratelimiter where
  hits : List ℚ
deriving DecidableEq

/-- Number of recorded hits inside the one-second window ending at `now`. -/
def Ratelimiter.windowCount (s : Ratelimiter) (now : ℚ) : Nat :=
  (s.hits.filter fun t => decide (now - 1 < t) && decide (t ≤ now)).length

/-- Modelled from the spec: `test()` — a slot is available iff fewer than
60 hits lie in the current one-second moving window. -/
def Ratelimiter.test (s : Ratelimiter) (now : ℚ) : Bool :=
  decide (s.windowCount now < 60)

/-- Modelled from the spec: `hit()` — consume a slot if one is available,
recording the event into the moving window. -/
def Ratelimiter.hit (s : Ratelimiter) (now : ℚ) : Bool × Ratelimiter :=
  if s.test now then (true, ⟨now :: s.hits⟩) else (false, s)

/-- A cooperative interleaving of several tasks interacting with the
global gate (`asyncio.Event`).  Each task is the list of events it still
has to perform; `gate` is the event's flag (`true` = set/open); `trace`
records which task performed which event, in order. -/
structure GateSys where
  gate : Bool
  tasks : List (List Event)
  trace : List (Nat × Event)
deriving DecidableEq

/-- Whether an event can be performed under the given gate state: only
`await self.global_event.wait()` blocks, and only while the gate is
cleared. -/
def canStep (g : Bool) : Event → Bool
  | .gateWait => g
  | _ => true

/-- Effect of an event on the gate flag: `clear()` and `set()`. -/
def gateAfter (g : Bool) : Event → Bool
  | .gateClear => false
  | .gateSet => true
  | _ => g

/-- Give task `id` a chance to perform its next event.  A task suspended at
a gate wait while the gate is cleared does nothing (it merely waits). -/
def schedStep (st : GateSys) (id : Nat) : GateSys :=
  match st.tasks[id]? with
  | some (e :: rest) =>
    if canStep st.gate e then
      ⟨gateAfter st.gate e, st.tasks.set id rest, st.trace ++ [(id, e)]⟩
    else st
  | _ => st

/-- Run a schedule (a list of task ids, each entry giving that task a
chance to perform one event). -/
def schedRun (st : GateSys) (sched : List Nat) : GateSys :=
  sched.foldl schedStep st

/-- The credential state of `HTTPClient` touched by `_token` (lines
275-278): `self.token`, `self.bot_token`, `self._ack_token`. -/
structure Cred where
  token : Option String
  bot_token : Bool
  ack_token : Option String
deriving DecidableEq

/-- The credential setter `_token(token, *, bot=True)` (lines 275-278). -/
def Cred._token (_ : Cred) (t : Option String) (b : Bool) : Cred := ⟨t, b, none⟩

/-- What `static_login` returns or raises. -/
inductive LoginOut where
  | ok (d : Data)
  | loginFailure
  | reraise (e : Err)
deriving DecidableEq

/-- The login helper `static_login(token, *, bot)` (lines 283-299), with the outcome of the
`GET /users/@me` identity-verification request supplied as an oracle.  The
old token and bot flag are saved, `_token` installs the new ones, and on an
`HTTPException` the old values are restored before `LoginFailure` (status
401) or the original exception propagates.  A non-`HTTPException` failure
(e.g. cancellation) propagates without restoring. -/
def static_login (c : Cred) (t : Option String) (b : Bool) (req : ReqResult) :
    LoginOut × Cred :=
  let old_token := c.token
  let old_bot := c.bot_token
  let c1 := c._token t b
  match req with
  | .success d => (.ok d, c1)
  | .failure e =>
    if e.isHTTP then
      let c2 := c1._token old_token old_bot
      if e.statusOf = some 401 then (.loginFailure, c2) else (.reraise e, c2)
    else (.reraise e, c1)

/-- Events that are a transport call. -/
def isTransport : Event → Bool
  | .transportCall => true
  | _ => false

/-- Events that consume a limiter slot. -/
def isHitEv : Event → Bool
  | .limiterHit => true
  | _ => false

/-- Events that release the bucket lock. -/
def isReleaseEv : Event → Bool
  | .lockRelease _ => true
  | _ => false

/-- Sleeps performed by the retry machinery (not the limiter jitter): the
429 backoffs and the 500/502 backoff. -/
def isBackoffSleep : Event → Bool
  | .sleep _ => true
  | .shieldSleep _ => true
  | .serverBackoff => true
  | _ => false

/-- Number of transport calls in a trace. -/
def countTransport (evs : List Event) : Nat := evs.countP isTransport

/-- State of the loop after a list of iterations. -/
def stAfter (ff : Bool) (pre : List AttemptEnv) (st : LoopState) : LoopState :=
  pre.foldl (fun s a => applyOut s (attemptRun ff a)) st

/-- Concatenated events of a list of iterations. -/
def eventsOf (ff : Bool) (pre : List AttemptEnv) : List Event :=
  (pre.map fun a => (attemptRun ff a).events).flatten

/-- An iteration whose outcome lets the loop move on to the next iteration
when one remains: an in-`try` `continue` or a caught raised exception. -/
def stepContinues (ff : Bool) (a : AttemptEnv) : Prop :=
  (∃ r d, (attemptRun ff a).step = .retryInTry r d) ∨
  (∃ e ro dd, (attemptRun ff a).step = .raised e ro dd)

/-- Concrete response for the C1 counterexample: a plain 403. -/
def r403c : Resp := ⟨403, none, none, "text/plain", "forbidden", none, 0⟩
/-- Concrete response: a plain 200 whose body is not JSON. -/
def r200c : Resp := ⟨200, none, none, "text/plain", "ok", none, 0⟩
/-- Environments for the C1 counterexample: a 403 on the first attempt, a
200 on the second. -/
def envsC1 : Fin 5 → AttemptEnv :=
  ![.resp 0 r403c false, .resp 0 r200c false, .transportErr 0, .transportErr 0,
    .transportErr 0]
/-- Environments for the C3 counterexample: a transport error on all five
attempts. -/
def envsC3 : Fin 5 → AttemptEnv := fun _ => .transportErr 0
/-- Concrete response for the C4 counterexample: a global 429 without a
`Via` header. -/
def rNoVia : Resp :=
  ⟨429, none, none, "application/json", "rl", some (.obj (some 2000) true), 0⟩
/-- Concrete response: a global 429 carrying a `Via` header. -/
def rGlob : Resp :=
  ⟨429, some "1.1 google", none, "application/json", "rl",
   some (.obj (some 1000) true), 0⟩
/-- Concrete response for the C7 counterexample: a 200 whose content type
is `text/plain` but whose body parses as JSON. -/
def rJsonText : Resp := ⟨200, none, none, "text/plain", "[1]", some .other, 0⟩
/-- Task program for the C2 counterexample: the events of one attempt that
received the global 429 `rGlob` (retry_after 1000 ms). -/
def g429prog : List Event := (attemptRun false (.resp 0 rGlob false)).events
/-- Two concurrent requests that each received the global 429, run under
an alternating schedule. -/
def twoTaskRun : GateSys :=
  schedRun ⟨true, [g429prog, g429prog], []⟩ [0, 1, 0, 1, 0, 1, 0, 1, 0, 1, 0, 1]

section RunFromLemmas

variable {ff : Bool} {a : AttemptEnv} {st : LoopState}

theorem runFrom_nil (ff : Bool) (st : LoopState) :
    runFrom ff [] st = (postLoop st, [], st) := rfl

theorem runFrom_cons_success {d : Data} (rest : List AttemptEnv) (st : LoopState)
    (h : (attemptRun ff a).step = .success d) :
    runFrom ff (a :: rest) st =
      (.success d, (attemptRun ff a).events, applyOut st (attemptRun ff a)) := by
  simp only [runFrom]
  rw [h]

theorem runFrom_cons_cancelled (rest : List AttemptEnv) (st : LoopState)
    (h : (attemptRun ff a).step = .cancelled) :
    runFrom ff (a :: rest) st =
      (.failure .cancelled, (attemptRun ff a).events, applyOut st (attemptRun ff a)) := by
  simp only [runFrom]
  rw [h]

theorem runFrom_cons_retry {r : Resp} {d : Data} (rest : List AttemptEnv) (st : LoopState)
    (h : (attemptRun ff a).step = .retryInTry r d) :
    runFrom ff (a :: rest) st =
      ((runFrom ff rest (applyOut st (attemptRun ff a))).1,
       (attemptRun ff a).events ++
         (runFrom ff rest (applyOut st (attemptRun ff a))).2.1,
       (runFrom ff rest (applyOut st (attemptRun ff a))).2.2) := by
  simp only [runFrom]
  rw [h]

theorem runFrom_cons_raised_last {e : Err} {ro : Option Resp} {dd : Option Data}
    (st : LoopState) (h : (attemptRun ff a).step = .raised e ro dd) :
    runFrom ff [a] st =
      (.failure e, (attemptRun ff a).events, applyOut st (attemptRun ff a)) := by
  simp only [runFrom]
  rw [h]
  simp

theorem runFrom_cons_raised_more {e : Err} {ro : Option Resp} {dd : Option Data}
    (rest : List AttemptEnv) (st : LoopState) (hne : rest ≠ [])
    (h : (attemptRun ff a).step = .raised e ro dd) :
    runFrom ff (a :: rest) st =
      ((runFrom ff rest (applyOut st (attemptRun ff a))).1,
       (attemptRun ff a).events ++
         (runFrom ff rest (applyOut st (attemptRun ff a))).2.1,
       (runFrom ff rest (applyOut st (attemptRun ff a))).2.2) := by
  have hE : rest.isEmpty = false := by
    cases rest with
    | nil => exact absurd rfl hne
    | cons b bs => rfl
  simp only [runFrom]
  rw [h, hE]
  simp

/-- Composing the loop: a prefix of iterations that all continue is run
first, contributing its events, and the loop proceeds on the remainder
from the accumulated state. -/
theorem runFrom_append (ff : Bool) (pre l : List AttemptEnv) (st : LoopState)
    (hl : l ≠ []) (hc : ∀ b ∈ pre, stepContinues ff b) :
    runFrom ff (pre ++ l) st =
      ((runFrom ff l (stAfter ff pre st)).1,
       eventsOf ff pre ++ (runFrom ff l (stAfter ff pre st)).2.1,
       (runFrom ff l (stAfter ff pre st)).2.2) := by
  induction pre generalizing st with
  | nil =>
    simp [stAfter, eventsOf]
  | cons b pre ih =>
    have htail : pre ++ l ≠ [] := by
      intro hEq
      rcases List.append_eq_nil.mp hEq with ⟨h1, h2⟩
      exact hl h2
    have hb := hc b (List.mem_cons_self b pre)
    have hrest : ∀ x ∈ pre, stepContinues ff x := fun x hx =>
      hc x (List.mem_cons_of_mem b hx)
    have hA : stAfter ff (b :: pre) st =
        stAfter ff pre (applyOut st (attemptRun ff b)) := by
      simp [stAfter]
    have hB : eventsOf ff (b :: pre) =
        (attemptRun ff b).events ++ eventsOf ff pre := by
      simp [eventsOf]
    rcases hb with ⟨r, d, h⟩ | ⟨e, ro, dd, h⟩
    · rw [List.cons_append, runFrom_cons_retry (pre ++ l) st h,
        ih (applyOut st (attemptRun ff b)) hrest, hA, hB, List.append_assoc]
    · rw [List.cons_append, runFrom_cons_raised_more (pre ++ l) st htail h,
        ih (applyOut st (attemptRun ff b)) hrest, hA, hB, List.append_assoc]

end RunFromLemmas

section CountLemmas

theorem countP_deferEvs (p : Event → Bool) (hdef : ∀ q, p (Event.deferEv q) = false)
    (dq : Option ℚ) : (deferEvs dq).countP p = 0 := by
  cases dq <;> simp [deferEvs, List.countP_cons, hdef]

theorem countP_classifyCore (p : Event → Bool)
    (hsl : ∀ q, p (Event.sleep q) = false) (hsh : ∀ q, p (Event.shieldSleep q) = false)
    (hcl : p Event.gateClear = false) (hset : p Event.gateSet = false)
    (hsb : p Event.serverBackoff = false) (r : Resp) (d : Data) (cib : Bool) :
    ((classifyCore r d cib).2).countP p = 0 := by
  unfold classifyCore
  repeat' split
  all_goals simp [List.countP_cons, hsl, hsh, hcl, hset, hsb]

theorem countP_classify (p : Event → Bool)
    (hdef : ∀ q, p (Event.deferEv q) = false)
    (hsl : ∀ q, p (Event.sleep q) = false) (hsh : ∀ q, p (Event.shieldSleep q) = false)
    (hcl : p Event.gateClear = false) (hset : p Event.gateSet = false)
    (hsb : p Event.serverBackoff = false) (ff : Bool) (r : Resp) (cib : Bool) :
    ((classify ff r cib).2.1).countP p = 0 := by
  unfold classify
  cases hD : dataOf ff r with
  | error r2 => simp
  | ok data =>
    simp [List.countP_append, countP_deferEvs p hdef,
      countP_classifyCore p hsl hsh hcl hset hsb]

theorem countP_pollEvents (p : Event → Bool)
    (hlt : ∀ b, p (Event.limiterTest b) = false) (hj : p Event.jitterSleep = false)
    (n : Nat) : (pollEvents n).countP p = 0 := by
  induction n with
  | zero => rfl
  | succ n ih => simp [pollEvents, List.countP_cons, hlt, hj, ih]

theorem countP_preEvents (p : Event → Bool) (hg : p Event.gateWait = false)
    (hlt : ∀ b, p (Event.limiterTest b) = false) (hj : p Event.jitterSleep = false)
    (n : Nat) :
    (preEvents n).countP p = if p Event.transportCall = true then 1 else 0 := by
  simp [preEvents, List.countP_cons, List.countP_append,
    countP_pollEvents p hlt hj, hg, hlt]

theorem countP_attempt_zero (p : Event → Bool)
    (hg : p Event.gateWait = false) (hlt : ∀ b, p (Event.limiterTest b) = false)
    (hj : p Event.jitterSleep = false) (ht : p Event.transportCall = false)
    (hdef : ∀ q, p (Event.deferEv q) = false)
    (hsl : ∀ q, p (Event.sleep q) = false) (hsh : ∀ q, p (Event.shieldSleep q) = false)
    (hcl : p Event.gateClear = false) (hset : p Event.gateSet = false)
    (hsb : p Event.serverBackoff = false) (ff : Bool) (a : AttemptEnv) :
    ((attemptRun ff a).events).countP p = 0 := by
  cases a <;>
    simp [attemptRun, List.countP_cons, List.countP_append,
      countP_pollEvents p hlt hj, countP_preEvents p hg hlt hj,
      countP_classify p hdef hsl hsh hcl hset hsb, hg, hlt, ht]

theorem countP_runFrom_zero (p : Event → Bool)
    (hg : p Event.gateWait = false) (hlt : ∀ b, p (Event.limiterTest b) = false)
    (hj : p Event.jitterSleep = false) (ht : p Event.transportCall = false)
    (hdef : ∀ q, p (Event.deferEv q) = false)
    (hsl : ∀ q, p (Event.sleep q) = false) (hsh : ∀ q, p (Event.shieldSleep q) = false)
    (hcl : p Event.gateClear = false) (hset : p Event.gateSet = false)
    (hsb : p Event.serverBackoff = false) (ff : Bool) (l : List AttemptEnv)
    (st : LoopState) : ((runFrom ff l st).2.1).countP p = 0 := by
  have hz := countP_attempt_zero p hg hlt hj ht hdef hsl hsh hcl hset hsb ff
  induction l generalizing st with
  | nil => rfl
  | cons a rest ih =>
    cases h : (attemptRun ff a).step with
    | success d => rw [runFrom_cons_success rest st h]; exact hz a
    | cancelled => rw [runFrom_cons_cancelled rest st h]; exact hz a
    | retryInTry r d =>
      rw [runFrom_cons_retry rest st h]
      simp [List.countP_append, hz a, ih]
    | raised e ro dd =>
      cases rest with
      | nil => rw [runFrom_cons_raised_last st h]; exact hz a
      | cons b bs =>
        rw [runFrom_cons_raised_more (b :: bs) st (by simp) h]
        simp [List.countP_append, hz a, ih]

theorem countP_attempt_transport_le (ff : Bool) (a : AttemptEnv) :
    ((attemptRun ff a).events).countP isTransport ≤ 1 := by
  cases a <;>
    simp [attemptRun, List.countP_cons, List.countP_append,
      countP_pollEvents isTransport (fun b => rfl) rfl,
      countP_preEvents isTransport rfl (fun b => rfl) rfl,
      countP_classify isTransport (fun q => rfl) (fun q => rfl) (fun q => rfl) rfl rfl rfl,
      isTransport]

theorem countP_runFrom_transport_le (ff : Bool) (l : List AttemptEnv)
    (st : LoopState) : ((runFrom ff l st).2.1).countP isTransport ≤ l.length := by
  induction l generalizing st with
  | nil => simp [runFrom_nil]
  | cons a rest ih =>
    have hle := countP_attempt_transport_le ff a
    cases h : (attemptRun ff a).step with
    | success d =>
      rw [runFrom_cons_success rest st h]
      exact le_trans hle (by simp)
    | cancelled =>
      rw [runFrom_cons_cancelled rest st h]
      exact le_trans hle (by simp)
    | retryInTry r d =>
      rw [runFrom_cons_retry rest st h]
      simp only [List.countP_append, List.length_cons]
      have := ih (applyOut st (attemptRun ff a))
      omega
    | raised e ro dd =>
      cases rest with
      | nil =>
        rw [runFrom_cons_raised_last st h]
        exact le_trans hle (by simp)
      | cons b bs =>
        rw [runFrom_cons_raised_more (b :: bs) st (by simp) h]
        simp only [List.countP_append, List.length_cons]
        have := ih (applyOut st (attemptRun ff a))
        simp only [List.length_cons] at this
        omega

end CountLemmas

section MemLemmas

theorem mem_pollEvents {n : Nat} {e : Event} (h : e ∈ pollEvents n) :
    e = Event.limiterTest false ∨ e = Event.jitterSleep := by
  induction n with
  | zero => simp [pollEvents] at h
  | succ n ih =>
    simp only [pollEvents, List.mem_cons] at h
    rcases h with rfl | rfl | h
    · exact Or.inl rfl
    · exact Or.inr rfl
    · exact ih h

theorem mem_preEvents {n : Nat} {e : Event} (h : e ∈ preEvents n) :
    e = Event.gateWait ∨ e = Event.limiterTest false ∨ e = Event.jitterSleep ∨
      e = Event.limiterTest true ∨ e = Event.transportCall := by
  simp only [preEvents, List.mem_cons, List.mem_append] at h
  rcases h with rfl | h | h
  · exact Or.inl rfl
  · rcases mem_pollEvents h with rfl | rfl
    · exact Or.inr (Or.inl rfl)
    · exact Or.inr (Or.inr (Or.inl rfl))
  · simp only [List.mem_cons, List.not_mem_nil, or_false, List.mem_singleton] at h
    rcases h with rfl | rfl
    · exact Or.inr (Or.inr (Or.inr (Or.inl rfl)))
    · exact Or.inr (Or.inr (Or.inr (Or.inr rfl)))

end MemLemmas

/-- C6.  For every response whose `X-Ratelimit-Remaining` header equals
`"0"` and whose status is not 429, the dispatcher records a deferral equal
to the parsed window-reset delta on the bucket lock; a scoped release
schedules the actual unlock after the recorded delay and resets it to
zero, so a never-deferred lock releases immediately and a deferral applies
to exactly one release. -/
theorem C6_defer_release :
    (∀ (ff : Bool) (n : Nat) (r : Resp) (c : Bool) (d : Data),
      dataOf ff r = .ok d → r.remaining = some "0" → r.status ≠ 429 →
        (attemptRun ff (.resp n r c)).deferQ = some (parseRatelimitHeader r) ∧
        Event.deferEv (parseRatelimitHeader r) ∈ (attemptRun ff (.resp n r c)).events) ∧
    (∀ (l : DeferrableLock) (d : ℚ),
      (l.defer_for d).aexit = (d, DeferrableLock.init)) ∧
    DeferrableLock.init.aexit = (0, DeferrableLock.init) ∧
    (∀ (l : DeferrableLock) (d : ℚ),
      ((l.defer_for d).aexit.2).aexit = (0, DeferrableLock.init)) := by
  refine ⟨?_, fun l d => rfl, rfl, fun l d => rfl⟩
  intro ff n r c d hD hrem hst
  constructor
  · simp [attemptRun, classify, hD, deferOf, hrem, hst]
  · simp [attemptRun, classify, hD, deferOf, hrem, hst, deferEvs]

/-- Witness for C6 at a concrete response. -/
theorem C6_defer_release_witness :
    (attemptRun false (.resp 0 ⟨200, none, some "0", "text/plain", "ok", none, 7⟩ false)).deferQ
      = some 7 ∧
    ((DeferrableLock.init.defer_for 7).aexit = (7, DeferrableLock.init)) := by
  constructor
  · exact ((C6_defer_release.1 false 0 ⟨200, none, some "0", "text/plain", "ok", none, 7⟩
      false (.text "ok") rfl rfl (by decide)).1)
  · exact C6_defer_release.2.1 DeferrableLock.init 7

/-- C9.  If the identity-verification request of `static_login` fails with
an `HTTPException`, the stored token and bot flag are restored to their
pre-call values before the error propagates, and `LoginFailure` is raised
exactly when the response status is 401 (the original exception otherwise). -/
theorem C9_login_restore (c : Cred) (t : Option String) (b : Bool) (e : Err)
    (h : e.isHTTP = true) :
    (static_login c t b (.failure e)).2.token = c.token ∧
    (static_login c t b (.failure e)).2.bot_token = c.bot_token ∧
    (static_login c t b (.failure e)).1 =
      (if e.statusOf = some 401 then LoginOut.loginFailure else LoginOut.reraise e) := by
  simp only [static_login, Cred._token, h]
  split
  · split <;> simp
  · simp_all

/-- Witness for C9: a 401 `HTTPException` and a 403 `Forbidden`. -/
theorem C9_login_restore_witness :
    ((static_login ⟨some "old", false, some "a"⟩ (some "new") true
        (.failure (.httpExn ⟨401, none, none, "", "", none, 0⟩ (.text "no")))).2.token
      = some "old") ∧
    ((static_login ⟨some "old", false, some "a"⟩ (some "new") true
        (.failure (.forbidden ⟨403, none, none, "", "", none, 0⟩ (.text "no")))).1
      = LoginOut.reraise (.forbidden ⟨403, none, none, "", "", none, 0⟩ (.text "no"))) := by
  constructor
  · exact (C9_login_restore ⟨some "old", false, some "a"⟩ (some "new") true
      (.httpExn ⟨401, none, none, "", "", none, 0⟩ (.text "no")) rfl).1
  · have h := (C9_login_restore ⟨some "old", false, some "a"⟩ (some "new") true
      (.forbidden ⟨403, none, none, "", "", none, 0⟩ (.text "no")) rfl).2.2
    simpa using h

/-- C10.  A 429 response carrying no `Via` header (body providing
`retry_after`) makes the attempt raise `HTTPException` instead of honoring
`retry_after`: the attempt performs no retry-after sleep and never closes
the global gate. -/
theorem C10_no_via (n : Nat) (r : Resp) (c : Bool) (ra : ℚ) (g : Bool)
    (h429 : r.status = 429) (hvia : r.via = none)
    (hbody : r.bodyJson = some (.obj (some ra) g)) :
    (attemptRun false (.resp n r c)).step =
      .raised (.httpExn r (.json (.obj (some ra) g))) (some r)
        (some (.json (.obj (some ra) g))) ∧
    (attemptRun false (.resp n r c)).events = preEvents n ∧
    Event.gateClear ∉ (attemptRun false (.resp n r c)).events ∧
    (∀ q, Event.sleep q ∉ (attemptRun false (.resp n r c)).events) ∧
    (∀ q, Event.shieldSleep q ∉ (attemptRun false (.resp n r c)).events) := by
  have hdata : dataOf false r = .ok (.json (.obj (some ra) g)) := by
    simp [dataOf, decodeCurl, hbody]
  have hfalsy : viaFalsy r = true := by simp [viaFalsy, hvia]
  have hstep : (attemptRun false (.resp n r c)).step =
      .raised (.httpExn r (.json (.obj (some ra) g))) (some r)
        (some (.json (.obj (some ra) g))) := by
    simp [attemptRun, classify, hdata, classifyCore, h429, hfalsy]
  have hevs : (attemptRun false (.resp n r c)).events = preEvents n := by
    simp [attemptRun, classify, hdata, classifyCore, h429, hfalsy, deferOf, deferEvs]
  refine ⟨hstep, hevs, ?_, ?_, ?_⟩
  · rw [hevs]; intro hmem; rcases mem_preEvents hmem with h | h | h | h | h <;> simp_all
  · intro q; rw [hevs]; intro hmem
    rcases mem_preEvents hmem with h | h | h | h | h <;> simp_all
  · intro q; rw [hevs]; intro hmem
    rcases mem_preEvents hmem with h | h | h | h | h <;> simp_all

/-- C8.  A cancellation delivered at any suspension point (gate wait,
limiter polling, the transport call, or any backoff sleep) makes the
iteration end as cancelled, and a cancelled iteration makes the whole
request fail with the cancellation immediately: it is never caught by the
retry handler, no further iterations run, and no events follow. -/
theorem C8_cancellation :
    (∀ (ff : Bool), (attemptRun ff .cancelAtGate).step = .cancelled) ∧
    (∀ (ff : Bool) (n : Nat), (attemptRun ff (.cancelAtPoll n)).step = .cancelled) ∧
    (∀ (ff : Bool) (n : Nat), (attemptRun ff (.transportCancel n)).step = .cancelled) ∧
    (∀ (n : Nat) (r : Resp) (ra : ℚ) (g : Bool),
      r.status = 429 → r.bodyJson = some (.obj (some ra) g) → viaFalsy r = false →
        (attemptRun false (.resp n r true)).step = .cancelled) ∧
    (∀ (n : Nat) (r : Resp), r.status = 500 ∨ r.status = 502 →
        (attemptRun false (.resp n r true)).step = .cancelled) ∧
    (∀ (ff : Bool) (a : AttemptEnv) (rest : List AttemptEnv) (st : LoopState),
      (attemptRun ff a).step = .cancelled →
        (runFrom ff (a :: rest) st).1 = .failure .cancelled ∧
        (runFrom ff (a :: rest) st).2.1 = (attemptRun ff a).events) := by
  refine ⟨fun ff => rfl, fun ff n => rfl, fun ff n => rfl, ?_, ?_, ?_⟩
  · intro n r ra g h429 hbody hvia
    have hdata : dataOf false r = .ok (.json (.obj (some ra) g)) := by
      simp [dataOf, decodeCurl, hbody]
    cases g <;> simp [attemptRun, classify, hdata, classifyCore, h429, hvia]
  · intro n r h
    rcases h with h | h <;> simp [attemptRun, classify, dataOf, classifyCore, h]
  · intro ff a rest st h
    rw [runFrom_cons_cancelled rest st h]
    exact ⟨rfl, rfl⟩

/-- Witness for C8: a request cancelled while waiting at the global gate
on its first attempt fails with the cancellation at once. -/
theorem C8_cancellation_witness :
    (runFrom false [AttemptEnv.cancelAtGate, AttemptEnv.transportErr 0] initState).1 =
      .failure .cancelled ∧
    (runFrom false [AttemptEnv.cancelAtGate, AttemptEnv.transportErr 0] initState).2.1 =
      [Event.gateWait] := by
  exact C8_cancellation.2.2.2.2.2 false .cancelAtGate [.transportErr 0] initState
    (C8_cancellation.1 false)

/-- C5 (code bug).  `HTTPClient.request` polls `Ratelimiter.test()` but
never calls `Ratelimiter.hit()`: no transport call ever consumes a slot of
the moving window, so the window stays empty and `test()` can never deny a
slot — the 60-per-second cap the limiter is meant to enforce is vacuous. -/
theorem C5_limiter_never_hit :
    (∀ (ff : Bool) (envs : Fin 5 → AttemptEnv),
      ((request ff envs).2).countP isHitEv = 0) ∧
    (∀ (now : ℚ), Ratelimiter.test ⟨[]⟩ now = true) ∧
    (∀ (now : ℚ), Ratelimiter.windowCount ⟨[]⟩ now = 0) := by
  refine ⟨?_, ?_, ?_⟩
  · intro ff envs
    simp [request, List.countP_cons, List.countP_append,
      countP_runFrom_zero isHitEv rfl (fun b => rfl) rfl rfl (fun q => rfl)
        (fun q => rfl) (fun q => rfl) rfl rfl rfl ff, isHitEv]
  · intro now
    simp [Ratelimiter.test, Ratelimiter.windowCount]
  · intro now
    simp [Ratelimiter.windowCount]

/-- C1 counterexample.  A request whose first attempt yields a 403 is NOT
ended by that attempt: the raised `Forbidden` is caught by the
`except Exception` retry handler, a second transport attempt runs, and its
200 response is returned — contradicting "raises the corresponding fatal
error on that very attempt and performs no further retry attempts". -/
theorem C1_counterexample :
    (request false envsC1).1 = .success (.text "ok") ∧
    countTransport (request false envsC1).2 = 2 := by
  decide

/-- C1 amended.  A 403/404/503 response makes the attempt raise
`Forbidden`/`NotFound`/`DiscordServerError`, but the raised error is caught
by the generic retry handler: while iterations remain the loop retries,
and only on the final (fifth) iteration does the raised error propagate. -/
theorem C1_amended :
    (∀ (n : Nat) (r : Resp) (c : Bool), r.status = 403 →
      (attemptRun false (.resp n r c)).step =
        .raised (.forbidden r (decodeCurl r)) (some r) (some (decodeCurl r))) ∧
    (∀ (n : Nat) (r : Resp) (c : Bool), r.status = 404 →
      (attemptRun false (.resp n r c)).step =
        .raised (.notFound r (decodeCurl r)) (some r) (some (decodeCurl r))) ∧
    (∀ (n : Nat) (r : Resp) (c : Bool), r.status = 503 →
      (attemptRun false (.resp n r c)).step =
        .raised (.serverError r (decodeCurl r)) (some r) (some (decodeCurl r))) ∧
    (∀ (ff : Bool) (a : AttemptEnv) (rest : List AttemptEnv) (st : LoopState)
        (e : Err) (ro : Option Resp) (dd : Option Data), rest ≠ [] →
      (attemptRun ff a).step = .raised e ro dd →
        (runFrom ff (a :: rest) st).1 =
          (runFrom ff rest (applyOut st (attemptRun ff a))).1) ∧
    (∀ (ff : Bool) (a : AttemptEnv) (st : LoopState)
        (e : Err) (ro : Option Resp) (dd : Option Data),
      (attemptRun ff a).step = .raised e ro dd →
        (runFrom ff [a] st).1 = .failure e) := by
  refine ⟨?_, ?_, ?_, ?_, ?_⟩
  · intro n r c h
    simp [attemptRun, classify, dataOf, classifyCore, h]
  · intro n r c h
    simp [attemptRun, classify, dataOf, classifyCore, h]
  · intro n r c h
    simp [attemptRun, classify, dataOf, classifyCore, h]
  · intro ff a rest st e ro dd hne h
    rw [runFrom_cons_raised_more rest st hne h]
  · intro ff a st e ro dd h
    rw [runFrom_cons_raised_last st h]

/-- Witness for C1 amended: the concrete 403 raises `Forbidden` on its
attempt, and a raised error on a non-final attempt hands control to the
remaining attempts. -/
theorem C1_amended_witness :
    (attemptRun false (.resp 0 r403c false)).step =
      .raised (.forbidden r403c (decodeCurl r403c)) (some r403c)
        (some (decodeCurl r403c)) ∧
    (runFrom false [.transportErr 0, .resp 0 r200c false] initState).1 =
      (runFrom false [.resp 0 r200c false]
        (applyOut initState (attemptRun false (.transportErr 0)))).1 := by
  constructor
  · exact C1_amended.1 0 r403c false rfl
  · exact C1_amended.2.2.2.1 false (.transportErr 0) [.resp 0 r200c false] initState
      .transportError none none (by simp) rfl

/-- C3 counterexample.  With a (non-cancellation) transport error on all
five attempts, the request re-raises the last transport exception itself —
not a `DiscordServerError`/`HTTPException` carrying a status and decoded
body as the claim states (no response was ever received, so there is no
"last observed status"). -/
theorem C3_counterexample :
    (request false envsC3).1 = .failure .transportError ∧
    Err.isHTTP .transportError = false ∧
    Err.statusOf .transportError = none := by
  decide

/-- C3 amended.  At most five transport attempts are made; a success on
any attempt is returned; when all five attempts fail retryably, the error
raised depends on how the fifth attempt failed: an exception raised inside
the `try` (e.g. a transport error) is re-raised as-is, while a fifth
attempt that ended in a 429/500/502 `continue` makes the fall-through code
raise `DiscordServerError` when the last status is ≥ 500 and
`HTTPException` otherwise, both carrying the last response and decoded
body. -/
theorem C3_amended :
    (∀ (ff : Bool) (envs : Fin 5 → AttemptEnv),
      countTransport (request ff envs).2 ≤ 5) ∧
    (∀ (ff : Bool) (pre l : List AttemptEnv) (a : AttemptEnv) (st : LoopState)
        (d : Data),
      (∀ b ∈ pre, stepContinues ff b) → (attemptRun ff a).step = .success d →
        (runFrom ff (pre ++ a :: l) st).1 = .success d) ∧
    (∀ (ff : Bool) (l : List AttemptEnv) (a : AttemptEnv) (st : LoopState)
        (e : Err) (ro : Option Resp) (dd : Option Data),
      (∀ b ∈ l, stepContinues ff b) →
      (attemptRun ff a).step = .raised e ro dd →
        (runFrom ff (l ++ [a]) st).1 = .failure e) ∧
    (∀ (ff : Bool) (l : List AttemptEnv) (a : AttemptEnv) (st : LoopState)
        (r : Resp) (d : Data),
      (∀ b ∈ l, stepContinues ff b) →
      (attemptRun ff a).step = .retryInTry r d →
        (runFrom ff (l ++ [a]) st).1 =
          (if 500 ≤ r.status then .failure (.serverError r d)
           else .failure (.httpExn r d))) := by
  refine ⟨?_, ?_, ?_, ?_⟩
  · intro ff envs
    have hloop := countP_runFrom_transport_le ff (List.ofFn envs) initState
    simp only [List.length_ofFn] at hloop
    simp only [request, countTransport, List.countP_cons, List.countP_append]
    simpa [isTransport] using hloop
  · intro ff pre l a st d hc h
    rw [runFrom_append ff pre (a :: l) st (by simp) hc,
      runFrom_cons_success l (stAfter ff pre st) h]
  · intro ff l a st e ro dd hc h
    rw [runFrom_append ff l [a] st (by simp) hc,
      runFrom_cons_raised_last (stAfter ff l st) h]
  · intro ff l a st r d hc h
    rw [runFrom_append ff l [a] st (by simp) hc,
      runFrom_cons_retry [] (stAfter ff l st) h, runFrom_nil]
    simp [postLoop, applyOut, h]

/-- Witness for C3 amended: four transport errors followed by a 200 yield
the 200's decoded body, and a mixed retryable history (transport error,
then a 429 `continue`) ending in a final 429 `continue` surfaces
`HTTPException` built from the last response. -/
theorem C3_amended_witness :
    (runFrom false
      [.transportErr 0, .transportErr 0, .transportErr 0, .transportErr 0,
       .resp 0 r200c false] initState).1 = .success (.text "ok") ∧
    (runFrom false
      ([.transportErr 0, .resp 0 rGlob false] ++ [.resp 0 rGlob false])
      initState).1 =
        .failure (.httpExn rGlob (.json (.obj (some 1000) true))) := by
  constructor
  · have hc : ∀ b ∈ [AttemptEnv.transportErr 0, AttemptEnv.transportErr 0,
        AttemptEnv.transportErr 0, AttemptEnv.transportErr 0],
        stepContinues false b := by
      intro b hb
      simp only [List.mem_cons, List.not_mem_nil, or_false] at hb
      rcases hb with rfl | rfl | rfl | rfl <;>
        exact Or.inr ⟨.transportError, none, none, rfl⟩
    exact C3_amended.2.1 false
      [.transportErr 0, .transportErr 0, .transportErr 0, .transportErr 0] []
      (.resp 0 r200c false) initState (.text "ok") hc (by decide)
  · have hc : ∀ b ∈ [AttemptEnv.transportErr 0, AttemptEnv.resp 0 rGlob false],
        stepContinues false b := by
      intro b hb
      simp only [List.mem_cons, List.not_mem_nil, or_false] at hb
      rcases hb with rfl | rfl
      · exact Or.inr ⟨.transportError, none, none, rfl⟩
      · exact Or.inl ⟨rGlob, .json (.obj (some 1000) true), rfl⟩
    have h := C3_amended.2.2.2 false [.transportErr 0, .resp 0 rGlob false]
      (.resp 0 rGlob false) initState rGlob (.json (.obj (some 1000) true)) hc rfl
    simpa [rGlob] using h

/-- C4 counterexample.  A 429 response whose body marks the limit global
but which carries no `Via` header does NOT close the gate and sleep as the
claim states for every 429: the attempt raises `HTTPException` and performs
no backoff sleep at all. -/
theorem C4_counterexample :
    (attemptRun false (.resp 0 rNoVia false)).step =
      .raised (.httpExn rNoVia (.json (.obj (some 2000) true))) (some rNoVia)
        (some (.json (.obj (some 2000) true))) ∧
    ((attemptRun false (.resp 0 rNoVia false)).events).countP isBackoffSleep = 0 ∧
    Event.gateClear ∉ (attemptRun false (.resp 0 rNoVia false)).events := by
  decide

/-- C4 amended.  For every 429 response that carries a (truthy) `Via`
header and whose body provides `retry_after`: the wait is `retry_after`
divided by 1000; with global scope the dispatcher adds 0.5 s, closes the
gate, sleeps, reopens the gate and continues; with bucket-only scope it
performs a shielded sleep of `retry_after/1000` and continues; either way
the iteration consumes one of the five attempts, and the bucket lock is
never released inside the loop. -/
theorem C4_amended :
    (∀ (n : Nat) (r : Resp) (ra : ℚ), r.status = 429 →
      r.bodyJson = some (.obj (some ra) true) → viaFalsy r = false →
        attemptRun false (.resp n r false) =
          ⟨.retryInTry r (.json (.obj (some ra) true)),
           preEvents n ++
             [Event.gateClear, Event.sleep (ra / 1000 + 1/2), Event.gateSet],
           none⟩) ∧
    (∀ (n : Nat) (r : Resp) (ra : ℚ), r.status = 429 →
      r.bodyJson = some (.obj (some ra) false) → viaFalsy r = false →
        attemptRun false (.resp n r false) =
          ⟨.retryInTry r (.json (.obj (some ra) false)),
           preEvents n ++ [Event.shieldSleep (ra / 1000)], none⟩) ∧
    (∀ (ff : Bool) (a : AttemptEnv) (rest : List AttemptEnv) (st : LoopState)
        (r : Resp) (d : Data),
      (attemptRun ff a).step = .retryInTry r d →
        (runFrom ff (a :: rest) st).1 =
          (runFrom ff rest (applyOut st (attemptRun ff a))).1) ∧
    (∀ (ff : Bool) (l : List AttemptEnv) (st : LoopState),
      ((runFrom ff l st).2.1).countP isReleaseEv = 0) := by
  refine ⟨?_, ?_, ?_, ?_⟩
  · intro n r ra h429 hbody hvia
    have hdata : dataOf false r = .ok (.json (.obj (some ra) true)) := by
      simp [dataOf, decodeCurl, hbody]
    simp [attemptRun, classify, hdata, classifyCore, h429, hvia, deferOf, deferEvs]
  · intro n r ra h429 hbody hvia
    have hdata : dataOf false r = .ok (.json (.obj (some ra) false)) := by
      simp [dataOf, decodeCurl, hbody]
    simp [attemptRun, classify, hdata, classifyCore, h429, hvia, deferOf, deferEvs]
  · intro ff a rest st r d h
    rw [runFrom_cons_retry rest st h]
  · intro ff l st
    exact countP_runFrom_zero isReleaseEv rfl (fun b => rfl) rfl rfl (fun q => rfl)
      (fun q => rfl) (fun q => rfl) rfl rfl rfl ff l st

/-- Witness for C4 amended at a concrete global 429 with a `Via` header:
retry_after 1000 ms gives a 1.5 s gate closure. -/
theorem C4_amended_witness :
    attemptRun false (.resp 0 rGlob false) =
      ⟨.retryInTry rGlob (.json (.obj (some 1000) true)),
       preEvents 0 ++
         [Event.gateClear, Event.sleep (1000 / 1000 + 1/2), Event.gateSet],
       none⟩ := by
  exact C4_amended.1 0 rGlob 1000 rfl rfl (by decide)

/-- C7 counterexample.  On the libcurl path (no files/form) a 2xx body
that parses as JSON is returned as JSON even though the content type does
not indicate JSON — refuting "decoded as JSON if and only if the content
type indicates JSON". -/
theorem C7_counterexample :
    strContains "json" rJsonText.contentType = false ∧
    (attemptRun false (.resp 0 rJsonText false)).step = .success (.json .other) := by
  decide

/-- C7 amended.  On the libcurl path (no files and no form — the path
taken by every JSON-bodied request) a 2xx body is decoded by attempting a
JSON parse and falling back to text, ignoring the content type; only on
the aiohttp files/form path does the content type decide (a JSON parse
failure there raises inside the loop); a 2xx ends the retry loop with the
decoded value. -/
theorem C7_amended :
    (∀ (n : Nat) (r : Resp) (c : Bool) (j : JsonVal),
      200 ≤ r.status → r.status < 300 → r.bodyJson = some j →
        (attemptRun false (.resp n r c)).step = .success (.json j)) ∧
    (∀ (n : Nat) (r : Resp) (c : Bool),
      200 ≤ r.status → r.status < 300 → r.bodyJson = none →
        (attemptRun false (.resp n r c)).step = .success (.text r.bodyText)) ∧
    (∀ (n : Nat) (r : Resp) (c : Bool) (j : JsonVal),
      200 ≤ r.status → r.status < 300 →
      strContains "json" r.contentType = true → r.bodyJson = some j →
        (attemptRun true (.resp n r c)).step = .success (.json j)) ∧
    (∀ (n : Nat) (r : Resp) (c : Bool),
      strContains "json" r.contentType = true → r.bodyJson = none →
        (attemptRun true (.resp n r c)).step =
          .raised (.jsonDecodeError r) (some r) none) ∧
    (∀ (n : Nat) (r : Resp) (c : Bool),
      200 ≤ r.status → r.status < 300 →
      strContains "json" r.contentType = false →
        (attemptRun true (.resp n r c)).step = .success (.text r.bodyText)) ∧
    (∀ (ff : Bool) (a : AttemptEnv) (rest : List AttemptEnv) (st : LoopState)
        (d : Data),
      (attemptRun ff a).step = .success d →
        runFrom ff (a :: rest) st =
          (.success d, (attemptRun ff a).events,
           applyOut st (attemptRun ff a))) := by
  refine ⟨?_, ?_, ?_, ?_, ?_, ?_⟩
  · intro n r c j h1 h2 hbody
    simp [attemptRun, classify, dataOf, decodeCurl, hbody, classifyCore, h1, h2]
  · intro n r c h1 h2 hbody
    simp [attemptRun, classify, dataOf, decodeCurl, hbody, classifyCore, h1, h2]
  · intro n r c j h1 h2 hct hbody
    simp [attemptRun, classify, dataOf, hct, hbody, classifyCore, h1, h2]
  · intro n r c hct hbody
    simp [attemptRun, classify, dataOf, hct, hbody]
  · intro n r c h1 h2 hct
    simp [attemptRun, classify, dataOf, hct, classifyCore, h1, h2]
  · intro ff a rest st d h
    exact runFrom_cons_success rest st h

/-- Witness for C7 amended: a JSON-typed 200 on the aiohttp path returns
the parsed JSON, and a 200 on the libcurl path with an unparseable body
returns the body text. -/
theorem C7_amended_witness :
    (attemptRun true (.resp 0 ⟨200, none, none, "application/json", "[1]",
        some .other, 0⟩ false)).step = .success (.json .other) ∧
    (attemptRun false (.resp 0 r200c false)).step = .success (.text "ok") := by
  constructor
  · exact C7_amended.2.2.1 0 ⟨200, none, none, "application/json", "[1]",
      some .other, 0⟩ false .other (by decide) (by decide) (by decide) rfl
  · exact C7_amended.2.1 0 r200c false (by decide) (by decide) rfl

/-- C2 counterexample.  Two concurrent requests that each observe the same
global 429 BOTH perform the close/sleep/reopen cycle: the second clears
the gate when it is already closed and performs its own sleep, so two
sleep cycles occur for one global lockout — refuting "exactly one of them
performs the close-gate/sleep/reopen cycle ... exactly one sleep cycle
occurs". -/
theorem C2_counterexample :
    twoTaskRun.tasks = [[], []] ∧
    (twoTaskRun.trace.countP fun p => isBackoffSleep p.2) = 2 ∧
    twoTaskRun.trace =
      [(0, .gateWait), (1, .gateWait), (0, .limiterTest true),
       (1, .limiterTest true), (0, .transportCall), (1, .transportCall),
       (0, .gateClear), (1, .gateClear), (0, .sleep (1000 / 1000 + 1/2)),
       (1, .sleep (1000 / 1000 + 1/2)), (0, .gateSet), (1, .gateSet)] :=
  ⟨rfl, rfl, rfl⟩

/-- C2 amended.  Every request that itself receives a global 429 performs
its own unconditional close/sleep/reopen cycle — the handler never checks
whether the gate is already closed — while a request suspended at the
loop-top gate wait with the gate closed merely waits, performing nothing;
hence n concurrent receivers of the same global signal perform n sleep
cycles, not one. -/
theorem C2_amended :
    (∀ (n : Nat) (r : Resp) (ra : ℚ), r.status = 429 →
      r.bodyJson = some (.obj (some ra) true) → viaFalsy r = false →
        (attemptRun false (.resp n r false)).events =
          preEvents n ++
            [Event.gateClear, Event.sleep (ra / 1000 + 1/2), Event.gateSet]) ∧
    (∀ (st : GateSys) (id : Nat) (prog : List Event),
      st.tasks[id]? = some (Event.gateWait :: prog) → st.gate = false →
        schedStep st id = st) := by
  constructor
  · intro n r ra h429 hbody hvia
    have hdata : dataOf false r = .ok (.json (.obj (some ra) true)) := by
      simp [dataOf, decodeCurl, hbody]
    simp [attemptRun, classify, hdata, classifyCore, h429, hvia, deferOf, deferEvs]
  · intro st id prog hget hgate
    simp [schedStep, hget, hgate, canStep]

/-- Witness for C2 amended: the concrete global 429 produces the full
cycle, and a task waiting at a closed gate stays put. -/
theorem C2_amended_witness :
    (attemptRun false (.resp 0 rGlob false)).events =
      preEvents 0 ++
        [Event.gateClear, Event.sleep (1000 / 1000 + 1/2), Event.gateSet] ∧
    schedStep ⟨false, [[Event.gateWait]], []⟩ 0 = ⟨false, [[Event.gateWait]], []⟩ := by
  constructor
  · exact C2_amended.1 0 rGlob 1000 rfl rfl (by decide)
  · exact C2_amended.2 ⟨false, [[Event.gateWait]], []⟩ 0 [] rfl rfl

/-- Witness for C10 at a concrete 429 response without a `Via` header. -/
theorem C10_no_via_witness :
    (attemptRun false (.resp 0 ⟨429, none, none, "application/json",
        "rate limited", some (.obj (some 2000) true), 0⟩ false)).step =
      .raised (.httpExn ⟨429, none, none, "application/json",
          "rate limited", some (.obj (some 2000) true), 0⟩
            (.json (.obj (some 2000) true)))
        (some ⟨429, none, none, "application/json",
          "rate limited", some (.obj (some 2000) true), 0⟩)
        (some (.json (.obj (some 2000) true))) := by
  exact (C10_no_via 0 ⟨429, none, none, "application/json",
    "rate limited", some (.obj (some 2000) true), 0⟩ false 2000 true rfl rfl rfl).1

end DiscordHttp
